import Mathlib

/-
Verification of the NESTICLE-TK NES front-end (`emuai.py`).

The program is a thin Tk GUI around an external emulation engine
(`nes_py.NESEnv`).  We shallowly embed its glue logic:

* `NESSystem.step` wraps one engine step; the engine's behaviour on a call
  is abstracted as an `EngineOutcome` (either the step succeeded and
  `env.screen` held a given optional frame, or an exception was raised).
* The input mapper (`keymap` / `update_action` / `on_key_press` /
  `on_key_release`) is embedded directly; `keys_pressed` is a Python set,
  modelled as a `Finset String`, and the nondeterministic iteration order
  of `update_action`'s loop is modelled by quantifying over list
  enumerations of the set.
* The application shell (`schedule_frame`, `toggle_run`, `reset_rom`,
  `load_rom`) becomes explicit state passing over `AppState`; the Tk
  `after` timer becomes a boolean "pending tick" flag plus a fuel-driven
  event loop `run_loop` that fires the pending tick while one exists.
  `step_calls` / `paints` / `reset_calls` instrument how often the engine
  was stepped, a frame was successfully painted, and `reset` was called.
-/

namespace EmuAI

/-- Opaque token standing for one 240×256×3 frame buffer; the claims never
inspect pixel contents, only presence/absence of a frame. -/
abbrev Frame := Nat

/-- Behaviour of the external engine on one `step` call of
`NESSystem.step`: either `env.step(action)` succeeds and `env.screen`
yields the given optional frame, or an exception (with message `msg`) is
raised somewhere inside the `try` block. -/
inductive EngineOutcome where
  | ok (screen : Option Frame)
  | exn (msg : String)
deriving DecidableEq, Repr

/-- `NESSystem.step` (emuai.py lines 26–36): on success returns
`(env.screen, False)` — even when the screen is `None` —; on any exception
catches it and returns `(None, True)`. The controller bitmask `action` is
forwarded to the engine and does not affect the wrapper's own control
flow. -/
def NESSystem.step (action : Nat) (o : EngineOutcome) : Option Frame × Bool :=
  match action, o with
  | _, EngineOutcome.ok screen => (screen, false)
  | _, EngineOutcome.exn _ => (none, true)

/-! ### Input mapper -/

/-- The key-to-controller-bit table (emuai.py lines 59–62). -/
def keymap : List (String × Nat) :=
  [("Right", 1), ("Left", 2), ("Down", 4), ("Up", 8),
   ("Return", 16), ("Shift_L", 32), ("x", 64), ("z", 128)]

/-- `self.keymap.get(k, 0)`. -/
def keymap_get (k : String) : Nat := (keymap.lookup k).getD 0

/-- `k in self.keymap` (dict key membership). -/
def keymap_contains (k : String) : Bool := (keymap.lookup k).isSome

/-- `update_action` (emuai.py lines 119–123) run over one particular
iteration order of the `keys_pressed` set: `action = 0`, then
`action |= keymap.get(k, 0)` for each held key. -/
def update_action (held : List String) : Nat :=
  held.foldl (fun a k => a ||| keymap_get k) 0

instance : Std.Commutative (fun a b : Nat => a ||| b) := ⟨Nat.lor_comm⟩

instance : Std.Associative (fun a b : Nat => a ||| b) := ⟨Nat.lor_assoc⟩

/-- Order-independent OR-reduction of the held keys' flag values: the
bitwise OR of the individual flags of the keys in `S`.  This is the
spec-side description of the controller bitmask ("OR-reduction over held
keys' bit values"). -/
def bitmask_of_set (S : Finset String) : Nat :=
  S.fold (fun a b : Nat => a ||| b) 0 keymap_get

/-- Input-mapper state: the Python set `self.keys_pressed` together with
the cached `self.current_action`. -/
structure InputState where
  keys_pressed : Finset String
  current_action : Nat
deriving DecidableEq

/-- Recompute `self.current_action` from the held set (the loop in
`update_action`; its result is iteration-order independent, see
`update_action_eq_bitmask`). -/
def update_action_state (st : InputState) : InputState :=
  { st with current_action := bitmask_of_set st.keys_pressed }

/-- `on_key_press` (emuai.py lines 109–112): if the keysym is mapped, add
it to the held set (Python `set.add`) and recompute the bitmask. -/
def on_key_press (st : InputState) (keysym : String) : InputState :=
  if keymap_contains keysym then
    update_action_state { st with keys_pressed := insert keysym st.keys_pressed }
  else st

/-- `on_key_release` (emuai.py lines 114–117): if the keysym is mapped and
currently held, remove it and recompute the bitmask. -/
def on_key_release (st : InputState) (keysym : String) : InputState :=
  if keymap_contains keysym = true ∧ keysym ∈ st.keys_pressed then
    update_action_state { st with keys_pressed := st.keys_pressed.erase keysym }
  else st

/-! ### Application shell -/

/-- Observable state of `NesticleTkApp`:
`nes_open` is `self.nes is not None`, `after_id` is `self.after_id is not
None` (a pending timer tick exists), `start_btn_text` / `status` are the
button label and status line, `current_action` the controller bitmask.
`step_calls`, `paints`, `reset_calls` count calls of `self.nes.step`,
successful paints inside `render_frame`, and calls of `self.nes.reset`. -/
structure AppState where
  nes_open : Bool
  after_id : Bool
  start_btn_text : String
  status : String
  current_action : Nat
  step_calls : Nat
  paints : Nat
  reset_calls : Nat
deriving DecidableEq, Repr

/-- `render_frame` (emuai.py lines 154–160): the bitmap
conversion/painting either succeeds (`ok = true`; the canvas image is
replaced — counted in `paints`) or raises, in which case the exception is
caught and only logged: the state is otherwise unchanged and nothing
propagates. -/
def render_frame (ok : Bool) (s : AppState) : AppState :=
  if ok then { s with paints := s.paints + 1 } else s

/-- One tick of `schedule_frame` (emuai.py lines 138–152).
`engine k` is the engine's behaviour on the `k`-th step call of the run
and `renderOk k` whether the paint attempted on that tick would succeed.
Follows the source line by line: step; if the frame is non-null, render
it, else set status "Frame error", clear `after_id` and return; then if
not done, reschedule (`after_id` set), else set status "Game Over",
relabel the button "Start" and clear `after_id`. -/
def schedule_frame (engine : Nat → EngineOutcome) (renderOk : Nat → Bool)
    (s : AppState) : AppState :=
  let r := NESSystem.step s.current_action (engine s.step_calls)
  let s1 := { s with step_calls := s.step_calls + 1 }
  match r.1 with
  | some _ =>
    let s2 := render_frame (renderOk s.step_calls) s1
    if r.2 then
      { s2 with status := "Game Over", start_btn_text := "Start", after_id := false }
    else
      { s2 with after_id := true }
  | none =>
    { s1 with status := "Frame error", after_id := false }

/-- `toggle_run` (emuai.py lines 125–136): no-op without a loaded ROM;
with a pending tick, cancel it (Pause); otherwise relabel "Pause", show
"Running" and run `schedule_frame` once. -/
def toggle_run (engine : Nat → EngineOutcome) (renderOk : Nat → Bool)
    (s : AppState) : AppState :=
  if s.nes_open = false then s
  else if s.after_id then
    { s with after_id := false, start_btn_text := "Start", status := "Paused" }
  else
    schedule_frame engine renderOk
      { s with start_btn_text := "Pause", status := "Running" }

/-- The Tk event loop restricted to the frame timer: while a pending tick
exists, fire `schedule_frame`; `fuel` bounds the number of timer
deliveries considered. -/
def run_loop (engine : Nat → EngineOutcome) (renderOk : Nat → Bool) :
    Nat → AppState → AppState
  | 0, s => s
  | fuel + 1, s =>
    if s.after_id then run_loop engine renderOk fuel (schedule_frame engine renderOk s)
    else s

/-- `reset_rom` (emuai.py lines 162–173): no-op without a loaded ROM;
cancel any pending tick, call `self.nes.reset()`, read `env.screen`
(parameter `screen`), repaint it if non-null (`renderOk` = whether that
paint succeeds), relabel "Start", show "Reset". -/
def reset_rom (screen : Option Frame) (renderOk : Bool) (s : AppState) : AppState :=
  if s.nes_open = false then s
  else
    let s1 := { s with after_id := false, reset_calls := s.reset_calls + 1 }
    let s2 := match screen with
      | some _ => render_frame renderOk s1
      | none => s1
    { s2 with start_btn_text := "Start", status := "Reset" }

/-- Resource events emitted by `load_rom`: `closeOld` is the
`self.nes.close()` call on the previously open handle, `construct ok` the
`NESSystem(path)` construction attempt (`ok` = whether `__init__`
succeeded). -/
inductive LoadEvent where
  | closeOld
  | construct (ok : Bool)
deriving DecidableEq, Repr

/-- `load_rom` (emuai.py lines 86–107): if no path was chosen, return
unchanged with no events.  Otherwise, if a handle is open, close it and
drop it; then try to construct `NESSystem(path)`: on success the new
handle is installed, its initial `env.screen` (parameter `screen`) is
rendered when non-null and the status shows the loaded name; on failure an
error dialog is shown and the status shows "Load failed".  Returns the new
state paired with the ordered resource events. -/
def load_rom (path_chosen : Bool) (init_ok : Bool) (screen : Option Frame)
    (renderOk : Bool) (s : AppState) : AppState × List LoadEvent :=
  if path_chosen = false then (s, [])
  else
    let closed := if s.nes_open then ({ s with nes_open := false }, [LoadEvent.closeOld])
      else (s, [])
    if init_ok then
      let s2 := { closed.1 with nes_open := true }
      let s3 := match screen with
        | some _ => render_frame renderOk s2
        | none => s2
      ({ s3 with status := "Loaded" }, closed.2 ++ [LoadEvent.construct true])
    else
      ({ closed.1 with status := "Load failed" }, closed.2 ++ [LoadEvent.construct false])

/-- Number of live engine handles after a prefix of resource events,
starting from `alive` live handles. -/
def aliveAfter (alive : Nat) : List LoadEvent → Nat
  | [] => alive
  | LoadEvent.closeOld :: rest => aliveAfter (alive - 1) rest
  | LoadEvent.construct ok :: rest => aliveAfter (if ok then alive + 1 else alive) rest

/-! ### Concrete fixtures used by witnesses and counterexamples -/

/-- Render oracle where every paint succeeds. -/
def rTrue : Nat → Bool := fun _ => true

/-- Stub engine whose step succeeds with a frame on calls 0 and 1 and
raises on call 2 (the 3rd call). -/
def engine3 : Nat → EngineOutcome :=
  fun k => if k < 2 then EngineOutcome.ok (some 0) else EngineOutcome.exn "boom"

/-- Stub engine that always raises. -/
def engineExn : Nat → EngineOutcome := fun _ => EngineOutcome.exn "fail"

/-- Stub engine whose step always succeeds but whose screen is null. -/
def engineOkNone : Nat → EngineOutcome := fun _ => EngineOutcome.ok none

/-- Stub engine that always succeeds with a frame. -/
def engineOkFrame : Nat → EngineOutcome := fun _ => EngineOutcome.ok (some 7)

/-- App state right after a successful ROM load, before Start. -/
def initState : AppState :=
  { nes_open := true, after_id := false, start_btn_text := "Start",
    status := "Loaded", current_action := 0, step_calls := 0, paints := 0,
    reset_calls := 0 }

/-- App state in the middle of a run: ROM loaded, tick pending. -/
def runningState : AppState :=
  { nes_open := true, after_id := true, start_btn_text := "Pause",
    status := "Running", current_action := 0, step_calls := 0, paints := 0,
    reset_calls := 0 }

/-! ### Helper lemmas -/

/-- Without a pending tick the timer loop fires nothing: the state is a
fixed point of `run_loop` for any amount of fuel. -/
theorem run_loop_of_not_after (engine : Nat → EngineOutcome)
    (renderOk : Nat → Bool) (n : Nat) (s : AppState) (h : s.after_id = false) :
    run_loop engine renderOk n s = s := by
  cases n <;> simp [run_loop, h]

/-- The OR-accumulating fold of `update_action` factors over its
accumulator. -/
theorem foldl_lor_eq (l : List String) (a : Nat) :
    l.foldl (fun acc k => acc ||| keymap_get k) a = a ||| update_action l := by
  induction l generalizing a with
  | nil => simp [update_action]
  | cons x xs ih =>
    simp only [update_action, List.foldl_cons]
    rw [ih (a ||| keymap_get x), ih (0 ||| keymap_get x)]
    simp [Nat.lor_assoc]

/-- The loop of `update_action` computes the same value on every
enumeration of the held set: it equals the order-independent OR-reduction
`bitmask_of_set`. -/
theorem update_action_eq_bitmask (l : List String) (h : l.Nodup) :
    update_action l = bitmask_of_set l.toFinset := by
  induction l with
  | nil => simp [update_action, bitmask_of_set]
  | cons x xs ih =>
    rw [List.nodup_cons] at h
    have hx : x ∉ xs.toFinset := by
      simpa [List.mem_toFinset] using h.1
    have step1 : update_action (x :: xs) = keymap_get x ||| update_action xs := by
      simp only [update_action, List.foldl_cons]
      rw [foldl_lor_eq]
      simp [update_action]
    rw [step1, ih h.2, List.toFinset_cons]
    simp only [bitmask_of_set, Finset.fold_insert hx]

/-- With a pending tick the timer delivers it: one unfolding of the
event loop. -/
theorem run_loop_succ_of_after (engine : Nat → EngineOutcome)
    (renderOk : Nat → Bool) (n : Nat) (s : AppState) (h : s.after_id = true) :
    run_loop engine renderOk (n + 1) s =
      run_loop engine renderOk n (schedule_frame engine renderOk s) := by
  simp [run_loop, h]

/-- Every tick makes exactly one step call, whatever the engine and the
renderer do. -/
theorem schedule_frame_step_calls (engine : Nat → EngineOutcome)
    (renderOk : Nat → Bool) (s : AppState) :
    (schedule_frame engine renderOk s).step_calls = s.step_calls + 1 := by
  cases h : engine s.step_calls with
  | ok screen =>
    cases screen with
    | none => simp [schedule_frame, NESSystem.step, h]
    | some f =>
      by_cases hr : renderOk s.step_calls = true
      · simp [schedule_frame, NESSystem.step, h, render_frame, hr]
      · simp [schedule_frame, NESSystem.step, h, render_frame, hr]
  | exn m => simp [schedule_frame, NESSystem.step, h]

/-- A tick on which the engine's step succeeds but the screen is null:
the frame-error branch of `schedule_frame`. -/
theorem schedule_frame_none (engine : Nat → EngineOutcome)
    (renderOk : Nat → Bool) (s : AppState)
    (h : engine s.step_calls = EngineOutcome.ok none) :
    schedule_frame engine renderOk s =
      { s with
        step_calls := s.step_calls + 1
        status := "Frame error"
        after_id := false } := by
  simp [schedule_frame, NESSystem.step, h]

/-- A tick on which the engine raises: `NESSystem.step` returns
`(none, true)`, so the null-frame check fires first and the tick takes the
same frame-error branch. -/
theorem schedule_frame_exn (engine : Nat → EngineOutcome)
    (renderOk : Nat → Bool) (s : AppState) (m : String)
    (h : engine s.step_calls = EngineOutcome.exn m) :
    schedule_frame engine renderOk s =
      { s with
        step_calls := s.step_calls + 1
        status := "Frame error"
        after_id := false } := by
  simp [schedule_frame, NESSystem.step, h]

/-- A tick on which the engine yields a frame: paint (success depending on
the renderer) and reschedule. -/
theorem schedule_frame_ok_some (engine : Nat → EngineOutcome)
    (renderOk : Nat → Bool) (s : AppState) (f : Frame)
    (h : engine s.step_calls = EngineOutcome.ok (some f)) :
    schedule_frame engine renderOk s =
      { s with
        step_calls := s.step_calls + 1
        after_id := true
        paints := if renderOk s.step_calls then s.paints + 1 else s.paints } := by
  by_cases hr : renderOk s.step_calls = true
  · simp [schedule_frame, NESSystem.step, h, render_frame, hr]
  · simp [schedule_frame, NESSystem.step, h, render_frame, hr]

/-! ### Claims -/

/-- C3: for every controller bitmask input, if the underlying engine
raises any exception during step, `NESSystem.step` returns `(None, True)`
instead of propagating the exception. -/
theorem step_exception_fail_closed (action : Nat) (msg : String) :
    NESSystem.step action (EngineOutcome.exn msg) = (none, true) := rfl

/-- C10: `NESSystem.step` returns done=false on every call in which the
engine does not raise (whatever the screen contents), and on every call
either the frame is null or done is false — so it never returns a non-null
frame paired with done=true. -/
theorem step_done_only_with_null_frame (action : Nat) (o : EngineOutcome) :
    (∀ screen, (NESSystem.step action (EngineOutcome.ok screen)).2 = false) ∧
      ((NESSystem.step action o).1 = none ∨ (NESSystem.step action o).2 = false) := by
  refine ⟨fun _ => rfl, ?_⟩
  cases o with
  | ok screen => exact Or.inr rfl
  | exn msg => exact Or.inl rfl

/-- C2: for every subset `S` of the 8 mapped keys held simultaneously (in
whatever order the set is iterated), the computed controller bitmask
equals the bitwise OR of the individual flag values of the keys in `S`,
and equals 0 when `S` is empty. -/
theorem current_bitmask_is_or_of_flags (S : Finset String)
    (_hS : ∀ k ∈ S, keymap_contains k = true)
    (l : List String) (hnd : l.Nodup) (hl : l.toFinset = S) :
    update_action l = bitmask_of_set S ∧ update_action [] = 0 ∧
      bitmask_of_set (∅ : Finset String) = 0 := by
  refine ⟨?_, rfl, rfl⟩
  rw [← hl]
  exact update_action_eq_bitmask l hnd

/-- Witness for C2 on the concrete held set {Right, Left}. -/
theorem current_bitmask_is_or_of_flags_witness :
    update_action ["Right", "Left"] = bitmask_of_set {"Right", "Left"} ∧
      update_action [] = 0 ∧ bitmask_of_set (∅ : Finset String) = 0 :=
  current_bitmask_is_or_of_flags {"Right", "Left"} (by decide)
    ["Right", "Left"] (by decide) (by decide)

/-- C7: a key-down event for a mapped key that is already held leaves the
held set and the controller bitmask (the whole input-mapper state)
unchanged. -/
theorem key_press_idempotent (st : InputState) (k : String)
    (hk : keymap_contains k = true) (hmem : k ∈ st.keys_pressed)
    (hsync : st.current_action = bitmask_of_set st.keys_pressed) :
    on_key_press st k = st := by
  have h1 : insert k st.keys_pressed = st.keys_pressed :=
    Finset.insert_eq_self.mpr hmem
  simp [on_key_press, hk, update_action_state, h1, ← hsync]

/-- Witness for C7: pressing the already-held key "x". -/
theorem key_press_idempotent_witness :
    on_key_press ⟨{"x"}, 64⟩ "x" = ⟨{"x"}, 64⟩ :=
  key_press_idempotent ⟨{"x"}, 64⟩ "x" (by decide) (by decide) (by decide)

/-- C5: when a tick's step yields a null frame with done=false, the loop
stops scheduling, the status line shows "Frame error", the engine handle
is left open, no further tick fires on its own, and pressing the
Start/Pause control performs a fresh step call (Start can be retried). -/
theorem frame_null_halts_retryable (engine : Nat → EngineOutcome)
    (renderOk : Nat → Bool) (s : AppState)
    (h : engine s.step_calls = EngineOutcome.ok none)
    (hopen : s.nes_open = true) :
    (schedule_frame engine renderOk s).status = "Frame error" ∧
    (schedule_frame engine renderOk s).after_id = false ∧
    (schedule_frame engine renderOk s).nes_open = true ∧
    (∀ n, run_loop engine renderOk n (schedule_frame engine renderOk s) =
      schedule_frame engine renderOk s) ∧
    (toggle_run engine renderOk (schedule_frame engine renderOk s)).step_calls =
      s.step_calls + 2 := by
  rw [schedule_frame_none engine renderOk s h]
  refine ⟨rfl, rfl, hopen, ?_, ?_⟩
  · exact fun n => run_loop_of_not_after engine renderOk n _ rfl
  · simp [toggle_run, hopen, schedule_frame_step_calls]

/-- Witness for C5: the concrete null-frame engine in the middle of a
run. -/
theorem frame_null_halts_retryable_witness :
    (schedule_frame engineOkNone rTrue runningState).status = "Frame error" ∧
    (schedule_frame engineOkNone rTrue runningState).after_id = false ∧
    (schedule_frame engineOkNone rTrue runningState).nes_open = true ∧
    (∀ n, run_loop engineOkNone rTrue n
        (schedule_frame engineOkNone rTrue runningState) =
      schedule_frame engineOkNone rTrue runningState) ∧
    (toggle_run engineOkNone rTrue
        (schedule_frame engineOkNone rTrue runningState)).step_calls =
      runningState.step_calls + 2 :=
  frame_null_halts_retryable engineOkNone rTrue runningState rfl rfl

/-- C8: a failed bitmap conversion is caught inside `render_frame` and
only logged: whatever the renderer does, the tick that painted keeps the
loop scheduled (`after_id` stays true), leaves status and button label
untouched, and makes its step call; a failing paint merely does not
increment the successful-paint count. -/
theorem render_failure_nonfatal (engine : Nat → EngineOutcome)
    (s : AppState) (f : Frame)
    (h : engine s.step_calls = EngineOutcome.ok (some f)) :
    (∀ renderOk : Nat → Bool,
      (schedule_frame engine renderOk s).after_id = true ∧
      (schedule_frame engine renderOk s).status = s.status ∧
      (schedule_frame engine renderOk s).start_btn_text = s.start_btn_text ∧
      (schedule_frame engine renderOk s).step_calls = s.step_calls + 1) ∧
    (schedule_frame engine (fun _ => false) s).paints = s.paints ∧
    (schedule_frame engine (fun _ => true) s).paints = s.paints + 1 := by
  refine ⟨fun renderOk => ?_, ?_, ?_⟩
  · rw [schedule_frame_ok_some engine renderOk s f h]
    exact ⟨rfl, rfl, rfl, rfl⟩
  · rw [schedule_frame_ok_some engine (fun _ => false) s f h]
    simp
  · rw [schedule_frame_ok_some engine (fun _ => true) s f h]
    simp

/-- Witness for C8: a tick of the always-framed engine from the
freshly-loaded state. -/
theorem render_failure_nonfatal_witness :
    (∀ renderOk : Nat → Bool,
      (schedule_frame engineOkFrame renderOk initState).after_id = true ∧
      (schedule_frame engineOkFrame renderOk initState).status =
        initState.status ∧
      (schedule_frame engineOkFrame renderOk initState).start_btn_text =
        initState.start_btn_text ∧
      (schedule_frame engineOkFrame renderOk initState).step_calls =
        initState.step_calls + 1) ∧
    (schedule_frame engineOkFrame (fun _ => false) initState).paints =
      initState.paints ∧
    (schedule_frame engineOkFrame (fun _ => true) initState).paints =
      initState.paints + 1 :=
  render_failure_nonfatal engineOkFrame initState 7 rfl

/-- C4 counterexample: a tick whose step call reports done=true (the
engine raised) leaves the Start/Pause control labelled "Pause" — it is not
relabelled to "Start" as the claim states, because the null frame that
accompanies done=true takes the frame-error branch first. -/
theorem done_pauses_counterexample :
    (NESSystem.step runningState.current_action
        (engineExn runningState.step_calls)).2 = true ∧
    (schedule_frame engineExn rTrue runningState).start_btn_text ≠ "Start" ∧
    (schedule_frame engineExn rTrue runningState).start_btn_text = "Pause" ∧
    (schedule_frame engineExn rTrue runningState).status = "Frame error" := by
  refine ⟨rfl, ?_, rfl, rfl⟩
  decide

/-- C4 amended: whenever a tick's step call reports done=true (with
`NESSystem.step` this happens exactly when the engine raised, and the
frame is then null), the shell transitions to Paused (pending tick
cleared) and makes no further step call on its own; the status shows
"Frame error" and the control label is left unchanged rather than
relabelled to "Start". -/
theorem done_pauses_no_relabel (engine : Nat → EngineOutcome)
    (renderOk : Nat → Bool) (s : AppState)
    (h : (NESSystem.step s.current_action (engine s.step_calls)).2 = true) :
    (schedule_frame engine renderOk s).after_id = false ∧
    (schedule_frame engine renderOk s).status = "Frame error" ∧
    (schedule_frame engine renderOk s).start_btn_text = s.start_btn_text ∧
    (∀ n, run_loop engine renderOk n (schedule_frame engine renderOk s) =
      schedule_frame engine renderOk s) := by
  cases ho : engine s.step_calls with
  | ok screen =>
    rw [ho] at h
    exact absurd h (by simp [NESSystem.step])
  | exn m =>
    rw [schedule_frame_exn engine renderOk s m ho]
    exact ⟨rfl, rfl, rfl,
      fun n => run_loop_of_not_after engine renderOk n _ rfl⟩

/-- Witness for C4 (amended): the always-raising engine mid-run. -/
theorem done_pauses_no_relabel_witness :
    (schedule_frame engineExn rTrue runningState).after_id = false ∧
    (schedule_frame engineExn rTrue runningState).status = "Frame error" ∧
    (schedule_frame engineExn rTrue runningState).start_btn_text =
      runningState.start_btn_text ∧
    (∀ n, run_loop engineExn rTrue n
        (schedule_frame engineExn rTrue runningState) =
      schedule_frame engineExn rTrue runningState) :=
  done_pauses_no_relabel engineExn rTrue runningState rfl

/-- C1 counterexample: with the stub engine that raises on the 3rd step
call, starting from a freshly loaded ROM, the run performs exactly 2
successful paints, makes 3 step calls and halts — but the status line
shows "Frame error", not "Game Over" as the claim states. -/
theorem third_step_raises_counterexample :
    (run_loop engine3 rTrue 10 (toggle_run engine3 rTrue initState)).paints =
      2 ∧
    (run_loop engine3 rTrue 10 (toggle_run engine3 rTrue initState)).status ≠
      "Game Over" ∧
    (run_loop engine3 rTrue 10 (toggle_run engine3 rTrue initState)).status =
      "Frame error" := by
  decide

/-- C1 amended: if the engine's step raises on the 3rd call of a run (the
first two succeeding with frames), the tick loop performs exactly 2
successful paints and 3 step calls, halts with the status line showing
"Frame error", and makes no further step calls however long the event
loop keeps running. -/
theorem third_step_raises_halts (n : Nat) :
    (run_loop engine3 rTrue (n + 2)
        (toggle_run engine3 rTrue initState)).paints = 2 ∧
    (run_loop engine3 rTrue (n + 2)
        (toggle_run engine3 rTrue initState)).status = "Frame error" ∧
    (run_loop engine3 rTrue (n + 2)
        (toggle_run engine3 rTrue initState)).step_calls = 3 ∧
    (run_loop engine3 rTrue (n + 2)
        (toggle_run engine3 rTrue initState)).after_id = false ∧
    (∀ m, run_loop engine3 rTrue m
        (run_loop engine3 rTrue (n + 2) (toggle_run engine3 rTrue initState)) =
      run_loop engine3 rTrue (n + 2) (toggle_run engine3 rTrue initState)) := by
  have key : run_loop engine3 rTrue (n + 2) (toggle_run engine3 rTrue initState) =
      schedule_frame engine3 rTrue
        (schedule_frame engine3 rTrue (toggle_run engine3 rTrue initState)) := by
    rw [show n + 2 = (n + 1) + 1 from rfl,
      run_loop_succ_of_after engine3 rTrue (n + 1) _ rfl,
      run_loop_succ_of_after engine3 rTrue n _ rfl]
    exact run_loop_of_not_after engine3 rTrue n _ rfl
  rw [key]
  exact ⟨rfl, rfl, rfl, rfl,
    fun m => run_loop_of_not_after engine3 rTrue m _ rfl⟩

/-- C9: Reset with a ROM loaded (Running or Paused alike) cancels any
pending tick, calls the handle's reset, repaints the post-reset frame
immediately, relabels the control "Start", and ends Paused: no tick fires
on its own afterwards. -/
theorem reset_cancels_and_repaints (s : AppState) (f : Frame)
    (hopen : s.nes_open = true) :
    (reset_rom (some f) true s).after_id = false ∧
    (reset_rom (some f) true s).reset_calls = s.reset_calls + 1 ∧
    (reset_rom (some f) true s).paints = s.paints + 1 ∧
    (reset_rom (some f) true s).start_btn_text = "Start" ∧
    (reset_rom (some f) true s).nes_open = true ∧
    (∀ n engine renderOk, run_loop engine renderOk n (reset_rom (some f) true s) =
      reset_rom (some f) true s) := by
  have h : reset_rom (some f) true s =
      { s with
        after_id := false
        reset_calls := s.reset_calls + 1
        paints := s.paints + 1
        start_btn_text := "Start"
        status := "Reset" } := by
    simp [reset_rom, hopen, render_frame]
  rw [h]
  exact ⟨rfl, rfl, rfl, rfl, hopen,
    fun n engine renderOk => run_loop_of_not_after engine renderOk n _ rfl⟩

/-- Witness for C9: reset pressed mid-run. -/
theorem reset_cancels_and_repaints_witness :
    (reset_rom (some 5) true runningState).after_id = false ∧
    (reset_rom (some 5) true runningState).reset_calls =
      runningState.reset_calls + 1 ∧
    (reset_rom (some 5) true runningState).paints = runningState.paints + 1 ∧
    (reset_rom (some 5) true runningState).start_btn_text = "Start" ∧
    (reset_rom (some 5) true runningState).nes_open = true ∧
    (∀ n engine renderOk, run_loop engine renderOk n
        (reset_rom (some 5) true runningState) =
      reset_rom (some 5) true runningState) :=
  reset_cancels_and_repaints runningState 5 rfl

/-- C6: loading a second ROM while one is already open emits exactly one
close of the old handle, strictly before the construction of the new one,
and along the whole event sequence at most one engine handle is alive. -/
theorem load_rom_closes_old_first (init_ok : Bool) (screen : Option Frame)
    (renderOk : Bool) (s : AppState) (hopen : s.nes_open = true) :
    (load_rom true init_ok screen renderOk s).2 =
      [LoadEvent.closeOld, LoadEvent.construct init_ok] ∧
    ((load_rom true init_ok screen renderOk s).2).count LoadEvent.closeOld = 1 ∧
    (∀ i, aliveAfter 1 (((load_rom true init_ok screen renderOk s).2).take i) ≤ 1) := by
  have htr : (load_rom true init_ok screen renderOk s).2 =
      [LoadEvent.closeOld, LoadEvent.construct init_ok] := by
    cases init_ok <;> cases screen <;> simp [load_rom, hopen]
  rw [htr]
  refine ⟨rfl, ?_, ?_⟩
  · cases init_ok <;> decide
  · intro i
    match i with
    | 0 => simp [aliveAfter]
    | 1 => cases init_ok <;> decide
    | j + 2 =>
      simp only [List.take_succ_cons, List.take_nil]
      cases init_ok <;> decide

/-- Witness for C6: loading over an open handle from the loaded state. -/
theorem load_rom_closes_old_first_witness :
    (load_rom true true (some 3) true initState).2 =
      [LoadEvent.closeOld, LoadEvent.construct true] ∧
    ((load_rom true true (some 3) true initState).2).count LoadEvent.closeOld = 1 ∧
    (∀ i, aliveAfter 1 (((load_rom true true (some 3) true initState).2).take i) ≤ 1) :=
  load_rom_closes_old_first true (some 3) true initState rfl

end EmuAI
